import Mathlib

/-!
Shallow embedding of `src/conf_mode/interfaces-pppoe.py` (VyOS PPPoE
interface configuration script).

The script's pipeline is `get_config` (read the hierarchical config store
into a dict), `verify` (validation), `generate` (stop the service, then
write or unlink the rendered peers file), `apply` (conditionally start the
service, poll for the kernel interface, attempt to set its alias).

Modelling conventions:
- the Python dict `default_config_data` becomes the record `ConfigSnapshot`;
- the hierarchical config store is a record of its three query functions;
- the Jinja2 template `config_pppoe_tmpl` is modelled as the list of
  non-blank lines of the rendered text, with each `\x7b% if %\x7d` block
  resolved exactly as Jinja2 resolves it (string truthiness = non-empty,
  `in` = substring containment);
- externally observable side effects (systemctl stop/start, file write,
  file unlink, interface alias set) become an `Event` trace;
- the bounded readiness poll becomes `poll_loop`, counting membership
  checks against a step-indexed interface lister.
-/

/-- One key of the Python config dict can hold either a single string
(`return_value`) or a list of strings (`return_values`); the source assigns
`conf.return_values` to the `access_concentrator` key, so that field gets
this sum type. -/
inductive StrField where
  | s (v : String)
  | l (v : List String)
deriving DecidableEq, Repr

/-- The config dict of `interfaces-pppoe.py`, one field per key of
`default_config_data` (source lines 94-113). -/
structure ConfigSnapshot where
  access_concentrator : StrField
  auth_username : String
  auth_password : String
  on_demand : Bool
  default_route : String
  deleted : Bool
  description : String
  disable : Bool
  intf : String
  idle_timeout : String
  ipv6_autoconf : Bool
  ipv6_enable : Bool
  local_address : String
  mtu : String
  name_server : Bool
  remote_address : String
  service_name : String
  source_interface : String
deriving DecidableEq, Repr

/-- `default_config_data` from the source: the defaults applied before any
store lookup. -/
def default_config_data : ConfigSnapshot :=
  { access_concentrator := StrField.s ""
    auth_username := ""
    auth_password := ""
    on_demand := false
    default_route := "auto"
    deleted := false
    description := ""
    disable := false
    intf := ""
    idle_timeout := ""
    ipv6_autoconf := false
    ipv6_enable := false
    local_address := ""
    mtu := "1492"
    name_server := true
    remote_address := ""
    service_name := ""
    source_interface := "" }

/-- Python's `pat in s` on strings: `pat` occurs as a contiguous substring
of `s`.  Used by the template's route-default block. -/
def strContains (s pat : String) : Bool :=
  decide (pat.data <:+: s.data)

/-- The route-default block of the Jinja2 template (source lines 75-80):
`if 'auto' in default_route` emit `defaultroute`; `elif 'force' in
default_route` emit `defaultroute` and `replacedefaultroute`; else nothing. -/
def route_default_block (default_route : String) : List String :=
  if strContains default_route "auto" then
    ["defaultroute"]
  else if strContains default_route "force" then
    ["defaultroute", "replacedefaultroute"]
  else
    []

/-- Lines of the rendered template before the route-default block: the
banner, the optional description comment (`if description` is Jinja string
truthiness, i.e. non-empty), the fixed pppd option lines, the bare
`source_interface` line, and the intf-derived lines. -/
def render_head (p : ConfigSnapshot) : List String :=
  ["### Autogenerated by interfaces-pppoe.py ###"]
  ++ (if p.description = "" then [] else ["# " ++ p.description])
  ++ ["# Require peer to provide the local IP address if it is not",
      "# specified explicitly in the config file.",
      "noipdefault",
      "# Don\x27t show the password in logfiles:",
      "hide-password",
      "# Standard Link Control Protocol (LCP) parameters:",
      "lcp-echo-interval 20",
      "lcp-echo-failure 3",
      "# RFC 2516, paragraph 7 mandates that the following options MUST NOT be",
      "# requested and MUST be rejected if requested by the peer:",
      "# Address-and-Control-Field-Compression (ACFC)",
      "noaccomp",
      "# Asynchronous-Control-Character-Map (ACCM)",
      "default-asyncmap",
      "# Override any connect script that may have been set in /etc/ppp/options.",
      "connect /bin/true",
      "# Don\x27t try to authenticate the remote node",
      "noauth",
      "# Don\x27t try to proxy ARP for the remote endpoint. User can set proxy",
      "# arp entries up manually if they wish.  More importantly, having",
      "# the \"proxyarp\" parameter set disables the \"defaultroute\" option.",
      "noproxyarp",
      "plugin rp-pppoe.so",
      p.source_interface,
      "persist",
      "ifname " ++ p.intf,
      "ipparam " ++ p.intf,
      "debug",
      "logfile /var/log/vyatta/ppp_" ++ p.intf ++ ".log"]

/-- Lines of the rendered template after the route-default block: mtu/mru
(both from the `mtu` key), the quoted credentials, and the two optional
trailing directives. -/
def render_tail (p : ConfigSnapshot) : List String :=
  ["mtu " ++ p.mtu,
   "mru " ++ p.mtu,
   "user \"" ++ p.auth_username ++ "\"",
   "password \"" ++ p.auth_password ++ "\""]
  ++ (if p.name_server then ["usepeerdns"] else [])
  ++ (if p.ipv6_enable then ["+ipv6"] else [])

/-- `Template(config_pppoe_tmpl).render(pppoe)`: the non-blank lines of the
rendered peers file, in order. -/
def render (p : ConfigSnapshot) : List String :=
  render_head p ++ route_default_block p.default_route ++ render_tail p

/-- The hierarchical configuration store, at its query interface:
`exists`, `return_value`, `return_values`, each taking an absolute path.
(`Config.set_level` in the source is modelled by prefixing the level path
onto every relative query path.) -/
structure ConfigStore where
  conf_exists : List String → Bool
  return_value : List String → String
  return_values : List String → List String

/-- The fixed base path `['interfaces', 'pppoe']` of `get_config`. -/
def base_path : List String := ["interfaces", "pppoe"]

/-- `get_config()` from the source.  `tag` models
`os.environ['VYOS_TAGNODE_VALUE']`: on `KeyError` the source only prints a
message, leaving the dict's default `intf` value in place.  If the
interface subtree is absent the snapshot is returned at once with
`deleted := true`; otherwise every field is populated from its store
lookup when present. -/
def get_config (conf : ConfigStore) (tag : Option String) : ConfigSnapshot :=
  let intf0 := tag.getD default_config_data.intf
  let p := { default_config_data with intf := intf0 }
  if conf.conf_exists (base_path ++ [intf0]) = false then
    { p with deleted := true }
  else
    let lvl := base_path ++ [intf0]
    let p := if conf.conf_exists (lvl ++ ["access-concentrator"]) then
      { p with access_concentrator :=
          StrField.l (conf.return_values (lvl ++ ["access-concentrator"])) } else p
    let p := if conf.conf_exists (lvl ++ ["authentication", "user"]) then
      { p with auth_username := conf.return_value (lvl ++ ["authentication", "user"]) } else p
    let p := if conf.conf_exists (lvl ++ ["authentication", "password"]) then
      { p with auth_password := conf.return_value (lvl ++ ["authentication", "password"]) } else p
    let p := if conf.conf_exists (lvl ++ ["connect-on-demand"]) then
      { p with on_demand := true } else p
    let p := if conf.conf_exists (lvl ++ ["default-route"]) then
      { p with default_route := conf.return_value (lvl ++ ["default-route"]) } else p
    let p := if conf.conf_exists (lvl ++ ["description"]) then
      { p with description := conf.return_value (lvl ++ ["description"]) } else p
    let p := if conf.conf_exists (lvl ++ ["disable"]) then
      { p with disable := true } else p
    let p := if conf.conf_exists (lvl ++ ["idle-timeout"]) then
      { p with idle_timeout := conf.return_value (lvl ++ ["idle-timeout"]) } else p
    let p := if conf.conf_exists (lvl ++ ["ipv6", "address", "autoconf"]) then
      { p with ipv6_autoconf := true } else p
    let p := if conf.conf_exists (lvl ++ ["ipv6", "enable"]) then
      { p with ipv6_enable := true } else p
    let p := if conf.conf_exists (lvl ++ ["local-address"]) then
      { p with local_address := conf.return_value (lvl ++ ["local-address"]) } else p
    let p := if conf.conf_exists (lvl ++ ["source-interface"]) then
      { p with source_interface := conf.return_value (lvl ++ ["source-interface"]) } else p
    let p := if conf.conf_exists (lvl ++ ["mtu"]) then
      { p with mtu := conf.return_value (lvl ++ ["mtu"]) } else p
    let p := if conf.conf_exists (lvl ++ ["no-peer-dns"]) then
      { p with name_server := false } else p
    let p := if conf.conf_exists (lvl ++ ["remote-address"]) then
      { p with remote_address := conf.return_value (lvl ++ ["remote-address"]) } else p
    let p := if conf.conf_exists (lvl ++ ["service-name"]) then
      { p with service_name := conf.return_value (lvl ++ ["service-name"]) } else p
    p

/-- `verify()` from the source: ok on deletion, `ConfigError` (modelled as
`Except.error` with the source's message) when the source interface is
empty (Python falsy), ok otherwise. -/
def verify (pppoe : ConfigSnapshot) : Except String Unit :=
  if pppoe.deleted then
    Except.ok ()
  else if pppoe.source_interface = "" then
    Except.error "PPPoE source interface is missing"
  else
    Except.ok ()

/-- The externally observable side effects of `generate`/`apply`:
`systemctl stop`, `systemctl start`, writing the peers file, unlinking it,
and the interface-alias set attempt. -/
inductive Event where
  | stop (unit : String)
  | start (unit : String)
  | write (path : String) (text : List String)
  | unlink (path : String)
  | set_alias (intf : String) (descr : String)
deriving DecidableEq, Repr

/-- True for the two artifact-file mutations (write / unlink). -/
def is_artifact_mutation : Event → Bool
  | Event.write _ _ => true
  | Event.unlink _ => true
  | _ => false

/-- True for a `systemctl start` invocation. -/
def is_start : Event → Bool
  | Event.start _ => true
  | _ => false

/-- `generate()` from the source, as its event trace.  `fs` is the set of
paths existing on disk (for the `os.path.exists` guard).  The service is
always stopped first; then on a deleted snapshot the peers file is
unlinked if present, otherwise the rendered text is written. -/
def generate (pppoe : ConfigSnapshot) (fs : List String) : List Event :=
  let config_file_pppoe := "/etc/ppp/peers/" ++ pppoe.intf
  Event.stop ("ppp@" ++ pppoe.intf ++ ".service") ::
    (if pppoe.deleted then
      (if fs.contains config_file_pppoe then [Event.unlink config_file_pppoe] else [])
    else
      [Event.write config_file_pppoe (render pppoe)])

/-- Outcome of the readiness poll: the interface was found, or the bound
was hit (`break` at `cnt == 50`); either way the number of membership
checks (`interfaces()` calls) performed is recorded.  Neither outcome is
an exception: the Python loop cannot raise. -/
inductive PollResult where
  | found (checks : Nat)
  | gaveUp (checks : Nat)
deriving DecidableEq, Repr

/-- The `while pppoe['intf'] not in interfaces()` loop of `apply`.  `lister`
gives the OS interface list at each successive check; `checks` counts the
checks made so far; `rem` is the number of further iterations the counter
permits (the source counts up, `cnt += 1; if cnt == 50: break`, so `rem`
is `50 - 1 - cnt` at loop entry). -/
def poll_aux (intf : String) (lister : Nat → List String) : Nat → Nat → PollResult
  | checks, rem =>
    if (lister checks).contains intf then
      PollResult.found (checks + 1)
    else
      match rem with
      | 0 => PollResult.gaveUp (checks + 1)
      | Nat.succ rem0 => poll_aux intf lister (checks + 1) rem0

/-- The readiness polling loop, entered with `cnt = 0`: at most 50
membership checks. -/
def poll_loop (intf : String) (lister : Nat → List String) : PollResult :=
  poll_aux intf lister 0 49

/-- `apply()` from the source: on a deleted snapshot it returns at once
(no events, no poll).  Otherwise `systemctl start` when not disabled, the
readiness poll, and then — unconditionally — the alias-set attempt
(`Interface(intf).set_alias(description)` inside `try/except`, so the
attempt happens whatever the poll outcome and its failure is swallowed).
Returns the event trace and the poll outcome when the poll ran. -/
def apply (pppoe : ConfigSnapshot) (lister : Nat → List String) :
    List Event × Option PollResult :=
  if pppoe.deleted then
    ([], none)
  else
    let starts :=
      if pppoe.disable = false then
        [Event.start ("ppp@" ++ pppoe.intf ++ ".service")]
      else []
    let poll := poll_loop pppoe.intf lister
    (starts ++ [Event.set_alias pppoe.intf pppoe.description], some poll)

/-- The `__main__` pipeline: `get_config`, `verify`, then the event traces
of `generate` and `apply`; a `ConfigError` from `verify` aborts the pass
(printed, exit code 1). -/
def pass_events (conf : ConfigStore) (tag : Option String) (fs : List String)
    (lister : Nat → List String) : Except String (List Event) :=
  let c := get_config conf tag
  match verify c with
  | Except.error e => Except.error e
  | Except.ok _ => Except.ok (generate c fs ++ (apply c lister).1)

/-- A store in which every path is absent (models a fully removed
configuration subtree). -/
def empty_store : ConfigStore :=
  { conf_exists := fun _ => false
    return_value := fun _ => ""
    return_values := fun _ => [] }

/-- An interface lister in which the interface never appears. -/
def never_lister : Nat → List String := fun _ => []

/-- Sample non-deleted snapshot (the spec's example scenario). -/
def sample_snapshot : ConfigSnapshot :=
  { default_config_data with intf := "pppoe0", source_interface := "eth0" }

/-- Sample deleted snapshot. -/
def deleted_snapshot : ConfigSnapshot :=
  { default_config_data with intf := "pppoe0", deleted := true }

/-- A non-deleted snapshot in `auto` mode whose source-interface field is
the directive string `replacedefaultroute` (the renderer emits that field
as a bare line). -/
def rogue_snapshot : ConfigSnapshot :=
  { default_config_data with intf := "pppoe0", source_interface := "replacedefaultroute" }

/-- A snapshot whose `default_route` merely contains `auto` as a
substring without being equal to it. -/
def auto_sub_snapshot : ConfigSnapshot :=
  { default_config_data with
      intf := "pppoe0", source_interface := "eth0", default_route := "xautoz" }

/-!  Theorems.  Shared helper lemmas first. -/

/-- Two strings differ when their first characters differ (stated for a
string built by appending onto a non-empty literal prefix). -/
theorem append_head_ne (a b t : String) (c1 c2 : Char)
    (h1 : a.data.head? = some c1) (h2 : t.data.head? = some c2) (hne : c1 ≠ c2) :
    t ≠ a ++ b := by
  intro he
  apply hne
  have hd : t.data = a.data ++ b.data := by rw [he, String.data_append]
  cases hx : a.data with
  | nil => rw [hx] at h1; exact absurd h1 (by simp)
  | cons x xs =>
      rw [hx] at h1 hd
      rw [hd] at h2
      simp at h1 h2
      exact h1.symm.trans h2

/-- Variant of `append_head_ne` for a left-associated double append. -/
theorem append3_head_ne (a b c t : String) (c1 c2 : Char)
    (h1 : a.data.head? = some c1) (h2 : t.data.head? = some c2) (hne : c1 ≠ c2) :
    t ≠ (a ++ b) ++ c := by
  rw [String.append_assoc]
  exact append_head_ne a (b ++ c) t c1 c2 h1 h2 hne

/-- Element lookup just past a prefix. -/
theorem get?_append_cons_self {α : Type} (pre : List α) (a : α) (suf : List α) :
    (pre ++ a :: suf).get? pre.length = some a := by
  induction pre with
  | nil => rfl
  | cons x xs ih => simpa using ih

/-- Element lookup one past a prefix. -/
theorem get?_append_cons_succ {α : Type} (pre : List α) (a b : α) (suf : List α) :
    (pre ++ a :: b :: suf).get? (pre.length + 1) = some b := by
  induction pre with
  | nil => rfl
  | cons x xs ih => simpa using ih

/-- If the interface is never in the lister, `poll_aux` gives up after
using up `rem` plus one further check. -/
theorem poll_aux_never (intf : String) (lister : Nat → List String)
    (h : ∀ k, (lister k).contains intf = false) :
    ∀ rem checks, poll_aux intf lister checks rem = PollResult.gaveUp (checks + rem + 1) := by
  intro rem
  induction rem with
  | zero =>
      intro checks
      show (if (lister checks).contains intf then PollResult.found (checks + 1)
            else PollResult.gaveUp (checks + 1)) = PollResult.gaveUp (checks + 0 + 1)
      rw [if_neg (show ¬((lister checks).contains intf = true) by
        rw [h checks]; exact Bool.false_ne_true)]
  | succ n ih =>
      intro checks
      show (if (lister checks).contains intf then PollResult.found (checks + 1)
            else poll_aux intf lister (checks + 1) n) = PollResult.gaveUp (checks + (n + 1) + 1)
      rw [if_neg (show ¬((lister checks).contains intf = true) by
        rw [h checks]; exact Bool.false_ne_true), ih (checks + 1)]
      congr 1
      omega

/-- Everything past the head of a `generate` trace is an artifact
operation, never a start. -/
theorem generate_tail_no_start (p : ConfigSnapshot) (fs : List String) :
    ∀ e ∈ (generate p fs).tail, is_start e = false := by
  simp only [generate, List.tail_cons]
  split
  · split <;> simp [is_start]
  · simp [is_start]

/-- The `apply` trace holds no artifact mutation. -/
theorem apply_no_artifact (p : ConfigSnapshot) (lister : Nat → List String) :
    ∀ e ∈ (apply p lister).1, is_artifact_mutation e = false := by
  cases hd : p.deleted <;> cases hs : p.disable <;>
    simp [apply, hd, hs, is_artifact_mutation]

/-- `defaultroute` occurs in the rendered text only as the bare
source-interface line or as a line of the route-default block. -/
theorem mem_render_iff_d (p : ConfigSnapshot) :
    "defaultroute" ∈ render p ↔
      (p.source_interface = "defaultroute" ∨
       "defaultroute" ∈ route_default_block p.default_route) := by
  have hA : ("defaultroute" : String) ≠ "# " ++ p.description :=
    append_head_ne _ _ _ '#' 'd' rfl rfl (by decide)
  have hB : ("defaultroute" : String) ≠ "ifname " ++ p.intf :=
    append_head_ne _ _ _ 'i' 'd' rfl rfl (by decide)
  have hC : ("defaultroute" : String) ≠ "ipparam " ++ p.intf :=
    append_head_ne _ _ _ 'i' 'd' rfl rfl (by decide)
  have hD : ("defaultroute" : String) ≠ ("logfile /var/log/vyatta/ppp_" ++ p.intf) ++ ".log" :=
    append3_head_ne _ _ _ _ 'l' 'd' rfl rfl (by decide)
  have hE : ("defaultroute" : String) ≠ "mtu " ++ p.mtu :=
    append_head_ne _ _ _ 'm' 'd' rfl rfl (by decide)
  have hF : ("defaultroute" : String) ≠ "mru " ++ p.mtu :=
    append_head_ne _ _ _ 'm' 'd' rfl rfl (by decide)
  have hG : ("defaultroute" : String) ≠ ("user \"" ++ p.auth_username) ++ "\"" :=
    append3_head_ne _ _ _ _ 'u' 'd' rfl rfl (by decide)
  have hH : ("defaultroute" : String) ≠ ("password \"" ++ p.auth_password) ++ "\"" :=
    append3_head_ne _ _ _ _ 'p' 'd' rfl rfl (by decide)
  by_cases hde : p.description = "" <;> cases hns : p.name_server <;>
    cases h6 : p.ipv6_enable <;>
      simp [render, render_head, render_tail, hde, hns, h6,
        hA, hB, hC, hD, hE, hF, hG, hH, eq_comm]

/-- `replacedefaultroute` occurs in the rendered text only as the bare
source-interface line or as a line of the route-default block. -/
theorem mem_render_iff_r (p : ConfigSnapshot) :
    "replacedefaultroute" ∈ render p ↔
      (p.source_interface = "replacedefaultroute" ∨
       "replacedefaultroute" ∈ route_default_block p.default_route) := by
  have hA : ("replacedefaultroute" : String) ≠ "# " ++ p.description :=
    append_head_ne _ _ _ '#' 'r' rfl rfl (by decide)
  have hB : ("replacedefaultroute" : String) ≠ "ifname " ++ p.intf :=
    append_head_ne _ _ _ 'i' 'r' rfl rfl (by decide)
  have hC : ("replacedefaultroute" : String) ≠ "ipparam " ++ p.intf :=
    append_head_ne _ _ _ 'i' 'r' rfl rfl (by decide)
  have hD : ("replacedefaultroute" : String) ≠ ("logfile /var/log/vyatta/ppp_" ++ p.intf) ++ ".log" :=
    append3_head_ne _ _ _ _ 'l' 'r' rfl rfl (by decide)
  have hE : ("replacedefaultroute" : String) ≠ "mtu " ++ p.mtu :=
    append_head_ne _ _ _ 'm' 'r' rfl rfl (by decide)
  have hF : ("replacedefaultroute" : String) ≠ "mru " ++ p.mtu :=
    append_head_ne _ _ _ 'm' 'r' rfl rfl (by decide)
  have hG : ("replacedefaultroute" : String) ≠ ("user \"" ++ p.auth_username) ++ "\"" :=
    append3_head_ne _ _ _ _ 'u' 'r' rfl rfl (by decide)
  have hH : ("replacedefaultroute" : String) ≠ ("password \"" ++ p.auth_password) ++ "\"" :=
    append3_head_ne _ _ _ _ 'p' 'r' rfl rfl (by decide)
  by_cases hde : p.description = "" <;> cases hns : p.name_server <;>
    cases h6 : p.ipv6_enable <;>
      simp [render, render_head, render_tail, hde, hns, h6,
        hA, hB, hC, hD, hE, hF, hG, hH, eq_comm]

/-- C1: `verify` returns ok on every deleted snapshot regardless of the
other fields; on a non-deleted snapshot it raises the
missing-source-interface `ConfigError` exactly when `source_interface` is
the empty string, and returns ok otherwise. -/
theorem C1_verify_spec (p : ConfigSnapshot) :
    (verify p = Except.ok () ↔ (p.deleted = true ∨ p.source_interface ≠ "")) ∧
    (verify p = Except.error "PPPoE source interface is missing" ↔
      (p.deleted = false ∧ p.source_interface = "")) := by
  cases hd : p.deleted <;> by_cases hs : p.source_interface = "" <;>
    simp [verify, hd, hs]

/-- Witness for C1 at a concrete deleted snapshot. -/
theorem C1_verify_spec_witness :
    (verify deleted_snapshot = Except.ok () ↔
      (deleted_snapshot.deleted = true ∨ deleted_snapshot.source_interface ≠ "")) ∧
    (verify deleted_snapshot = Except.error "PPPoE source interface is missing" ↔
      (deleted_snapshot.deleted = false ∧ deleted_snapshot.source_interface = "")) :=
  C1_verify_spec deleted_snapshot

/-- C2 counterexample: a non-deleted snapshot in `auto` mode whose
source-interface field is the string `replacedefaultroute` renders to text
containing BOTH directive lines (the field is emitted as a bare line),
although the claim requires the replace directive to be absent in `auto`
mode. -/
theorem C2_route_mode_counterexample :
    rogue_snapshot.deleted = false ∧
    rogue_snapshot.default_route = "auto" ∧
    "defaultroute" ∈ render rogue_snapshot ∧
    "replacedefaultroute" ∈ render rogue_snapshot := by
  refine ⟨rfl, rfl, ?_, ?_⟩ <;> decide

/-- C2 amended: for every non-deleted snapshot whose source-interface
field is not itself one of the two directive strings, the rendered text
contains the default-route directive and not the replace directive in
`auto` mode, both in `force` mode, and neither in `none` mode. -/
theorem C2_route_mode_amended (p : ConfigSnapshot) (hdel : p.deleted = false)
    (h1 : p.source_interface ≠ "defaultroute")
    (h2 : p.source_interface ≠ "replacedefaultroute") :
    (p.default_route = "auto" →
      ("defaultroute" ∈ render p ∧ "replacedefaultroute" ∉ render p)) ∧
    (p.default_route = "force" →
      ("defaultroute" ∈ render p ∧ "replacedefaultroute" ∈ render p)) ∧
    (p.default_route = "none" →
      ("defaultroute" ∉ render p ∧ "replacedefaultroute" ∉ render p)) := by
  refine ⟨fun hr => ⟨?_, ?_⟩, fun hr => ⟨?_, ?_⟩, fun hr => ⟨?_, ?_⟩⟩
  · exact (mem_render_iff_d p).mpr (Or.inr (by rw [hr]; decide))
  · intro hmem
    rcases (mem_render_iff_r p).mp hmem with hc | hc
    · exact h2 hc
    · rw [hr] at hc; exact absurd hc (by decide)
  · exact (mem_render_iff_d p).mpr (Or.inr (by rw [hr]; decide))
  · exact (mem_render_iff_r p).mpr (Or.inr (by rw [hr]; decide))
  · intro hmem
    rcases (mem_render_iff_d p).mp hmem with hc | hc
    · exact h1 hc
    · rw [hr] at hc; exact absurd hc (by decide)
  · intro hmem
    rcases (mem_render_iff_r p).mp hmem with hc | hc
    · exact h2 hc
    · rw [hr] at hc; exact absurd hc (by decide)

/-- Witness for the amended C2 at the spec's example snapshot. -/
theorem C2_route_mode_amended_witness :
    "defaultroute" ∈ render sample_snapshot ∧
    "replacedefaultroute" ∉ render sample_snapshot :=
  (C2_route_mode_amended sample_snapshot rfl (by decide) (by decide)).1 rfl

/-- C3 counterexample: with an interface that never appears the poll
exhausts its bound (`gaveUp` after 50 checks), and the alias-set attempt
is nevertheless present in the `apply` trace — it is not skipped. -/
theorem C3_alias_counterexample :
    (apply sample_snapshot never_lister).2 = some (PollResult.gaveUp 50) ∧
    Event.set_alias "pppoe0" "" ∈ (apply sample_snapshot never_lister).1 := by
  exact ⟨rfl, by decide⟩

/-- C3 amended: for a non-deleted snapshot the alias-set attempt is always
the last event of the `apply` trace, performed after the polling loop
terminates regardless of its outcome (the trace does not depend on the
lister at all); any failure of the attempt is swallowed, and on a deleted
snapshot the step emits no events. -/
theorem C3_alias_after_poll_amended (p : ConfigSnapshot)
    (lister lister2 : Nat → List String) :
    (p.deleted = false →
      (apply p lister).1.getLast? = some (Event.set_alias p.intf p.description)) ∧
    (apply p lister).1 = (apply p lister2).1 ∧
    (p.deleted = true → (apply p lister).1 = []) := by
  cases hd : p.deleted <;> cases hs : p.disable <;> simp [apply, hd, hs]

/-- Witness for the amended C3: the alias-set attempt closes the trace
even when the interface never appears. -/
theorem C3_alias_after_poll_amended_witness :
    (apply sample_snapshot never_lister).1.getLast? =
      some (Event.set_alias sample_snapshot.intf sample_snapshot.description) :=
  (C3_alias_after_poll_amended sample_snapshot never_lister never_lister).1 rfl

/-- C4 counterexample: with the subtree absent and tag value `pppoe0`, the
returned snapshot has `deleted = true` but its `intf` field holds
`pppoe0`, not the documented default (the empty string), so not every
field other than `deleted` is at its default. -/
theorem C4_absent_defaults_counterexample :
    (get_config empty_store (some "pppoe0")).deleted = true ∧
    (get_config empty_store (some "pppoe0")).intf ≠ default_config_data.intf := by
  exact ⟨rfl, by decide⟩

/-- C4 amended: when the interface subtree is absent, extraction returns a
snapshot with `deleted = true`, with `intf` holding the environment-
provided tag value (the default empty string when the variable is absent),
and with every remaining field at its documented default; extraction is a
total function, so it cannot fail in this case. -/
theorem C4_absent_defaults_amended (conf : ConfigStore) (tag : Option String)
    (h : conf.conf_exists (base_path ++ [tag.getD default_config_data.intf]) = false) :
    get_config conf tag =
      { default_config_data with
          intf := tag.getD default_config_data.intf, deleted := true } := by
  simp [get_config, h]

/-- Witness for the amended C4 at a concrete empty store. -/
theorem C4_absent_defaults_amended_witness :
    get_config empty_store (some "pppoe0") =
      { default_config_data with
          intf := (some "pppoe0").getD default_config_data.intf, deleted := true } :=
  C4_absent_defaults_amended empty_store (some "pppoe0") rfl

/-- C5: in every end-to-end pass that reaches reconciliation (`verify`
ok — which every deleted snapshot does), the unconditional `systemctl
stop` is the first event of the trace, and the trace splits as stop, then
a segment containing no start (it holds the artifact mutations), then a
segment containing no artifact mutation (it holds any start): the stop
precedes every artifact mutation, and every artifact mutation precedes
any start. -/
theorem C5_stop_artifact_start_order (conf : ConfigStore) (tag : Option String)
    (fs : List String) (lister : Nat → List String) :
    (∀ tr, pass_events conf tag fs lister = Except.ok tr →
      ∃ a b,
        tr = Event.stop ("ppp@" ++ (get_config conf tag).intf ++ ".service") :: (a ++ b) ∧
        (∀ e ∈ a, is_start e = false) ∧
        (∀ e ∈ b, is_artifact_mutation e = false)) ∧
    ((get_config conf tag).deleted = true →
      ∃ tr, pass_events conf tag fs lister = Except.ok tr) := by
  constructor
  · intro tr htr
    cases hv : verify (get_config conf tag) with
    | error e => simp [pass_events, hv] at htr
    | ok u =>
        simp only [pass_events, hv] at htr
        injection htr with htr
        refine ⟨(generate (get_config conf tag) fs).tail,
          (apply (get_config conf tag) lister).1, ?_,
          generate_tail_no_start (get_config conf tag) fs,
          apply_no_artifact (get_config conf tag) lister⟩
        rw [← htr]
        simp [generate]
  · intro hdel
    exact ⟨generate (get_config conf tag) fs ++ (apply (get_config conf tag) lister).1,
      by simp [pass_events, verify, hdel]⟩

/-- Witness for C5: a concrete deleted pass, whose trace is just the stop
event. -/
theorem C5_stop_artifact_start_order_witness :
    ∃ a b,
      [Event.stop "ppp@pppoe0.service"] =
        Event.stop ("ppp@" ++ (get_config empty_store (some "pppoe0")).intf ++ ".service") ::
          (a ++ b) ∧
      (∀ e ∈ a, is_start e = false) ∧
      (∀ e ∈ b, is_artifact_mutation e = false) :=
  (C5_stop_artifact_start_order empty_store (some "pppoe0") [] never_lister).1
    [Event.stop "ppp@pppoe0.service"] rfl

/-- C6: when the interface name never appears in the OS interface
enumeration, the readiness polling loop terminates after exactly 50
membership checks, returning the non-error `gaveUp` outcome, and a
non-deleted `apply` run records exactly that poll outcome. -/
theorem C6_poll_bound_fifty (p : ConfigSnapshot) (lister : Nat → List String)
    (h : ∀ k, (lister k).contains p.intf = false) :
    poll_loop p.intf lister = PollResult.gaveUp 50 ∧
    (p.deleted = false → (apply p lister).2 = some (PollResult.gaveUp 50)) := by
  have hp : poll_loop p.intf lister = PollResult.gaveUp 50 := by
    rw [poll_loop, poll_aux_never p.intf lister h 49 0]
  exact ⟨hp, fun hd => by simp [apply, hd, hp]⟩

/-- Witness for C6 at a lister in which the interface never appears. -/
theorem C6_poll_bound_fifty_witness :
    poll_loop sample_snapshot.intf never_lister = PollResult.gaveUp 50 ∧
    (sample_snapshot.deleted = false →
      (apply sample_snapshot never_lister).2 = some (PollResult.gaveUp 50)) :=
  C6_poll_bound_fifty sample_snapshot never_lister (fun _ => rfl)

/-- C7: in the rendered text of a non-deleted snapshot, the MTU line is
immediately followed by the MRU line and both carry the snapshot's `mtu`
value, so the rendered MRU value equals the rendered MTU value. -/
theorem C7_mtu_mru_symmetry (p : ConfigSnapshot) (h : p.deleted = false) :
    ∃ i, (render p).get? i = some ("mtu " ++ p.mtu) ∧
         (render p).get? (i + 1) = some ("mru " ++ p.mtu) := by
  have hshape : render p =
      (render_head p ++ route_default_block p.default_route) ++
        (("mtu " ++ p.mtu) :: ("mru " ++ p.mtu) ::
          (["user \"" ++ p.auth_username ++ "\"",
            "password \"" ++ p.auth_password ++ "\""]
           ++ (if p.name_server then ["usepeerdns"] else [])
           ++ (if p.ipv6_enable then ["+ipv6"] else []))) := by
    simp [render, render_tail]
  refine ⟨(render_head p ++ route_default_block p.default_route).length, ?_, ?_⟩
  · rw [hshape, get?_append_cons_self]
  · rw [hshape, get?_append_cons_succ]

/-- Witness for C7 at the spec's example snapshot. -/
theorem C7_mtu_mru_symmetry_witness :
    ∃ i, (render sample_snapshot).get? i = some ("mtu " ++ sample_snapshot.mtu) ∧
         (render sample_snapshot).get? (i + 1) = some ("mru " ++ sample_snapshot.mtu) :=
  C7_mtu_mru_symmetry sample_snapshot rfl

/-- C8 counterexample: on a deleted snapshot whose peers file is already
absent, `generate` performs no artifact operation at all (the unlink is
guarded by the existence check), so it is false that exactly one of the
two artifact operations runs in every pass. -/
theorem C8_artifact_ops_counterexample :
    deleted_snapshot.deleted = true ∧
    (generate deleted_snapshot []).filter is_artifact_mutation = [] := by
  exact ⟨rfl, by decide⟩

/-- C8 amended: at most one artifact operation runs per pass: the peers
file is written exactly when the snapshot is not deleted, it is unlinked
when the snapshot is deleted and the file currently exists, and no
artifact operation runs when the snapshot is deleted and the file is
already absent. -/
theorem C8_artifact_ops_amended (p : ConfigSnapshot) (fs : List String) :
    ((generate p fs).filter is_artifact_mutation).length ≤ 1 ∧
    (p.deleted = false →
      (generate p fs).filter is_artifact_mutation =
        [Event.write ("/etc/ppp/peers/" ++ p.intf) (render p)]) ∧
    (p.deleted = true → ("/etc/ppp/peers/" ++ p.intf) ∈ fs →
      (generate p fs).filter is_artifact_mutation =
        [Event.unlink ("/etc/ppp/peers/" ++ p.intf)]) ∧
    (p.deleted = true → ("/etc/ppp/peers/" ++ p.intf) ∉ fs →
      (generate p fs).filter is_artifact_mutation = []) := by
  cases hd : p.deleted <;> by_cases hfs : ("/etc/ppp/peers/" ++ p.intf) ∈ fs <;>
    simp [generate, hd, hfs, is_artifact_mutation, List.filter]

/-- Witness for the amended C8: a non-deleted pass writes exactly the
rendered artifact. -/
theorem C8_artifact_ops_amended_witness :
    (generate sample_snapshot []).filter is_artifact_mutation =
      [Event.write ("/etc/ppp/peers/" ++ sample_snapshot.intf) (render sample_snapshot)] :=
  (C8_artifact_ops_amended sample_snapshot []).2.1 rfl

/-- C9: a `systemctl start` event appears in the `apply` trace exactly
when the snapshot is neither deleted nor disabled. -/
theorem C9_start_condition (p : ConfigSnapshot) (lister : Nat → List String) :
    (∃ u, Event.start u ∈ (apply p lister).1) ↔
      (p.deleted = false ∧ p.disable = false) := by
  cases hd : p.deleted <;> cases hs : p.disable <;> simp [apply, hd, hs]

/-- Witness for C9 at a concrete snapshot. -/
theorem C9_start_condition_witness :
    (∃ u, Event.start u ∈ (apply sample_snapshot never_lister).1) ↔
      (sample_snapshot.deleted = false ∧ sample_snapshot.disable = false) :=
  C9_start_condition sample_snapshot never_lister

/-- C10: the route-directive choice is decided by substring containment
of `auto`, then of `force`, in the `default_route` string: an
`auto`-containing string emits only the default-route directive, an
otherwise `force`-containing string emits both directives, and any other
string (the empty string included) emits neither; rendering is total and
splices exactly this block between the fixed head and tail lines. -/
theorem C10_route_substring (p : ConfigSnapshot) :
    render p = render_head p ++ route_default_block p.default_route ++ render_tail p ∧
    (("auto".data <:+: p.default_route.data) →
      route_default_block p.default_route = ["defaultroute"]) ∧
    (¬("auto".data <:+: p.default_route.data) →
      ("force".data <:+: p.default_route.data) →
      route_default_block p.default_route = ["defaultroute", "replacedefaultroute"]) ∧
    (¬("auto".data <:+: p.default_route.data) →
      ¬("force".data <:+: p.default_route.data) →
      route_default_block p.default_route = []) := by
  refine ⟨rfl, fun h => ?_, fun hn h => ?_, fun hn hn2 => ?_⟩
  · simp [route_default_block, strContains, h]
  · simp [route_default_block, strContains, hn, h]
  · simp [route_default_block, strContains, hn, hn2]

/-- Witness for C10: a `default_route` string that is not equal to `auto`
but contains it as a substring still selects the auto branch. -/
theorem C10_route_substring_witness :
    route_default_block auto_sub_snapshot.default_route = ["defaultroute"] :=
  (C10_route_substring auto_sub_snapshot).2.1 (by decide)
